import Mathlib

/-!
Verification of the realtime chat application (Vue client + socket.io server).

The server keeps a `users` map (socket id → display name) and a bounded
`messageHistory` array with capacity `MAX_HISTORY = 100`; eviction is by
`push` followed by `shift()` when the length exceeds the capacity.  The
client rebuilds the online-user set and the message timeline from the
replayed history by substring-matching on the human readable `message`
text.  All handlers below are direct translations of the JavaScript
source; wall-clock timestamps are passed in as parameters because the
source reads them from `new Date()`.
-/

namespace ChatApp

/-- History event as the server constructs it: `{userId, userName, message,
timestamp}`, with the extra `totalUsers` field that only `Left` events carry. -/
structure HistEvent where
  userId : String
  userName : String
  message : String
  timestamp : String
  totalUsers : Option Nat := none
  deriving DecidableEq, Repr

/-- Outbound events the server can emit to clients. -/
inductive OutEvent where
  | userJoined (e : HistEvent)
  | userReconnected (userId userName : String)
  | receiveMessage (e : HistEvent)
  | userLeft (e : HistEvent)
  deriving DecidableEq, Repr

/-- Bounded append, translated from the source pattern
`messageHistory.push(e); if (messageHistory.length > MAX_HISTORY) messageHistory.shift();`.
`shift()` removes the first (oldest) element. -/
def boundedPush {α : Type} (maxH : Nat) (log : List α) (e : α) : List α :=
  if maxH < (log ++ [e]).length then (log ++ [e]).tail else log ++ [e]

/-- The server constant `MAX_HISTORY = 100`. -/
def MAX_HISTORY : Nat := 100

/-- JavaScript `Map.prototype.set`: insert, or overwrite in place when the key
is already present (insertion order of surviving keys is preserved). -/
def mapSet (m : List (String × String)) (k v : String) : List (String × String) :=
  if m.any (fun p => p.1 = k) then
    m.map (fun p => if p.1 = k then (k, v) else p)
  else
    m ++ [(k, v)]

/-- JavaScript `Map.prototype.get`, returning `none` for an absent key. -/
def mapGet (m : List (String × String)) (k : String) : Option String :=
  (m.find? (fun p => p.1 = k)).map (fun p => p.2)

/-- JavaScript `Map.prototype.delete`: removes the entry for `k`, no-op when
absent. -/
def mapDelete (m : List (String × String)) (k : String) : List (String × String) :=
  m.filter (fun p => p.1 ≠ k)

/-- Server-side mutable state: `const users = new Map()` and
`const messageHistory = []`. -/
structure ServerState where
  users : List (String × String)
  messageHistory : List HistEvent
  deriving DecidableEq, Repr

/-- The initial server state: empty registry, empty history. -/
def initState : ServerState := { users := [], messageHistory := [] }

/-- The `Joined` event the `user_join` handler constructs. -/
def mkJoinEvent (socketId userName ts : String) : HistEvent :=
  { userId := socketId
    userName := userName
    message := userName ++ " joined the chat"
    timestamp := ts }

/-- The `Message` event the `send_message` handler constructs. -/
def mkMessageEvent (socketId userName body ts : String) : HistEvent :=
  { userId := socketId
    userName := userName
    message := body
    timestamp := ts }

/-- The `Left` event the `disconnect` handler constructs; `totalUsers` is the
registry size after the deletion. -/
def mkLeftEvent (socketId userName ts : String) (remaining : Nat) : HistEvent :=
  { userId := socketId
    userName := userName
    message := userName ++ " left the chat"
    timestamp := ts
    totalUsers := some remaining }

/-- Translation of `socket.on('user_join', ...)`: check whether any live
connection already holds the name, register the entry unconditionally, then
either append a `Joined` event and broadcast `user_joined`, or broadcast
`user_reconnected` with no history append. -/
def handleUserJoin (st : ServerState) (socketId userName ts : String) :
    ServerState × List OutEvent :=
  let userAlreadyExists := (st.users.map (fun p => p.2)).contains userName
  let users' := mapSet st.users socketId userName
  if userAlreadyExists then
    ({ st with users := users' }, [.userReconnected socketId userName])
  else
    let joinEvent := mkJoinEvent socketId userName ts
    ({ users := users'
       messageHistory := boundedPush MAX_HISTORY st.messageHistory joinEvent },
     [.userJoined joinEvent])

/-- Translation of `socket.on('send_message', ...)`: look the sender up in the
registry; `if (userName)` is JavaScript truthiness, false both for an absent
entry and for the empty string. -/
def handleSendMessage (st : ServerState) (socketId body ts : String) :
    ServerState × List OutEvent :=
  match mapGet st.users socketId with
  | none => (st, [])
  | some userName =>
    if userName = "" then (st, [])
    else
      let messageEvent := mkMessageEvent socketId userName body ts
      ({ st with
          messageHistory := boundedPush MAX_HISTORY st.messageHistory messageEvent },
       [.receiveMessage messageEvent])

/-- Translation of `socket.on('disconnect', ...)`: the registry entry is
deleted unconditionally; a `Left` event is appended and broadcast only when
the lookup produced a truthy (present and non-empty) name. -/
def handleDisconnect (st : ServerState) (socketId ts : String) :
    ServerState × List OutEvent :=
  let userName := mapGet st.users socketId
  let users' := mapDelete st.users socketId
  match userName with
  | none => ({ st with users := users' }, [])
  | some n =>
    if n = "" then ({ st with users := users' }, [])
    else
      let leftEvent := mkLeftEvent socketId n ts users'.length
      ({ users := users'
         messageHistory := boundedPush MAX_HISTORY st.messageHistory leftEvent },
       [.userLeft leftEvent])

/-- A normalized timeline entry as `load_history` / the live handlers build
them: either a system line or a chat bubble. -/
inductive TimelineEntry where
  | system (message timestamp : String)
  | message (userId userName body timestamp : String) (isOwn : Bool)
  deriving DecidableEq, Repr

/-- The `timestamp` field shared by both timeline entry shapes. -/
def TimelineEntry.timestamp : TimelineEntry → String
  | .system _ ts => ts
  | .message _ _ _ ts _ => ts

/-- Boolean test that `pat` occurs at the start of `l`. -/
def startsWith : List Char → List Char → Bool
  | _, [] => true
  | [], _ :: _ => false
  | c :: cs, p :: ps => c = p && startsWith cs ps

/-- Boolean substring test on character lists. -/
def hasSub : List Char → List Char → Bool
  | [], pat => pat.isEmpty
  | l@(_ :: cs), pat => startsWith l pat || hasSub cs pat

/-- JavaScript `String.prototype.includes` for plain substring search. -/
def strIncludes (s pat : String) : Bool :=
  hasSub s.toList pat.toList

/-- One step of the online-set reconstruction in the `load_history` handler:
`msg.message && msg.message.includes('joined')` records the name,
`msg.message && msg.message.includes('left')` deletes it, anything else is
ignored.  `userJoins` is a JavaScript object keyed by user name; for the
non-numeric keys used here, insert/overwrite/delete preserve first-insertion
order exactly as the association list does. -/
def replayStep (userJoins : List (String × String)) (msg : HistEvent) :
    List (String × String) :=
  if msg.message ≠ "" ∧ strIncludes msg.message "joined" then
    mapSet userJoins msg.userName msg.userId
  else if msg.message ≠ "" ∧ strIncludes msg.message "left" then
    mapDelete userJoins msg.userName
  else
    userJoins

/-- The online map (`userJoins`: display name → latest userId) obtained by
folding `replayStep` over the received snapshot.  The handler also maintains a
`userLefts` set, but it is dead state: nothing reads it, so it is omitted. -/
def replayOnline (history : List HistEvent) : List (String × String) :=
  history.foldl replayStep []

/-- Classification of one snapshot event into a timeline entry, from the
`history.map` in the `load_history` handler: a non-empty message containing
`joined` or `left` becomes a system entry, everything else a chat bubble
tagged `isOwn` when its `userName` equals the local user's chosen name. -/
def classifyMsg (localName : String) (msg : HistEvent) : TimelineEntry :=
  if msg.message ≠ "" ∧ (strIncludes msg.message "joined" ∨ strIncludes msg.message "left") then
    .system msg.message msg.timestamp
  else
    .message msg.userId msg.userName msg.message msg.timestamp (msg.userName = localName)

/-- Result of the client `load_history` handler: the rebuilt online users
list (entries `{id, name}`, from `Object.entries(userJoins)`) and the rebuilt
timeline. -/
structure LoadHistoryResult where
  users : List (String × String)
  messages : List TimelineEntry
  deriving DecidableEq, Repr

/-- Translation of `socket.on('load_history', ...)`. -/
def loadHistoryClient (localName : String) (history : List HistEvent) :
    LoadHistoryResult :=
  { users := (replayOnline history).map (fun p => (p.2, p.1))
    messages := history.map (classifyMsg localName) }

/-- Translation of `shouldShowTimeSeparator(index)`: false for index 0 or a
missing entry, otherwise true exactly when the `HH:MM` timestamp string
differs from the previous entry's. -/
def shouldShowTimeSeparator (msgs : List TimelineEntry) (index : Nat) : Bool :=
  if index = 0 then false
  else
    match msgs[index]?, msgs[index - 1]? with
    | some currentMsg, some prevMsg =>
      currentMsg.timestamp ≠ prevMsg.timestamp
    | _, _ => false

/-- Client-side reactive state touched by the claims under study. -/
structure ClientState where
  userName : String
  messageInput : String
  messages : List TimelineEntry
  users : List (String × String)
  isConnected : Bool
  loginPhase : Bool
  showConnectionModal : Bool
  showInitialConnectPrompt : Bool
  deriving DecidableEq, Repr

/-- Whitespace characters removed by JavaScript `String.prototype.trim` (the
ASCII subset; the full JS class also has Unicode spaces, handled identically). -/
def isJsWhitespace (c : Char) : Bool :=
  c = ' ' || c = '\t' || c = '\n' || c = '\r' || c.toNat = 11 || c.toNat = 12

/-- JavaScript `String.prototype.trim`: strips leading and trailing
whitespace. -/
def jsTrim (s : String) : String :=
  String.mk (((s.toList.dropWhile isJsWhitespace).reverse.dropWhile isJsWhitespace).reverse)

/-- Translation of `joinChat`: proceeds to the connect prompt only when the
trimmed user name is truthy (non-empty); otherwise nothing happens. -/
def joinChat (s : ClientState) : ClientState :=
  if jsTrim s.userName ≠ "" then
    { s with loginPhase := false, showInitialConnectPrompt := true }
  else
    s

/-- Translation of the client `socket.on('disconnect', ...)` handler: it only
clears the connected flag and deliberately keeps users and messages. -/
def clientOnDisconnect (s : ClientState) : ClientState :=
  { s with isConnected := false }

/-- Translation of `leaveChat` (the socket.disconnect() call is a transport
effect outside this state): clears messages, users and the chosen name, and
returns to the login phase. -/
def leaveChat (s : ClientState) : ClientState :=
  { s with
      loginPhase := true
      messages := []
      users := []
      userName := ""
      isConnected := false }

/-! ### Helper lemmas -/

theorem boundedPush_length_le {α : Type} {maxH : Nat} {log : List α} (e : α)
    (h : log.length ≤ maxH) : (boundedPush maxH log e).length ≤ maxH := by
  unfold boundedPush
  by_cases hc : maxH < (log ++ [e]).length
  · rw [if_pos hc]
    simp only [List.length_tail, List.length_append, List.length_singleton, List.length_nil, List.length_cons]
    omega
  · rw [if_neg hc]
    simp only [List.length_append, List.length_singleton, not_lt] at hc ⊢
    omega

theorem foldl_boundedPush_drop {α : Type} (maxH : Nat) (es : List α) :
    ∀ log : List α, log.length ≤ maxH →
      es.foldl (boundedPush maxH) log =
        (log ++ es).drop (log.length + es.length - maxH) := by
  induction es with
  | nil =>
    intro log h
    simp [Nat.sub_eq_zero_of_le h]
  | cons e es ih =>
    intro log h
    rw [List.foldl_cons]
    by_cases hc : maxH < (log ++ [e]).length
    · have hlen : log.length = maxH := by
        simp only [List.length_append, List.length_singleton, List.length_nil, List.length_cons] at hc
        omega
      have hpush : boundedPush maxH log e = (log ++ [e]).tail := by
        unfold boundedPush
        rw [if_pos hc]
      have htl : ((log ++ [e]).tail).length ≤ maxH := by
        simp only [List.length_tail, List.length_append, List.length_singleton, List.length_nil, List.length_cons]
        omega
      rw [hpush, ih _ htl]
      have h1 : (log ++ [e]).tail ++ es = (log ++ e :: es).tail := by
        cases log with
        | nil => simp
        | cons a l => simp
      have hidx1 : ((log ++ [e]).tail).length + es.length - maxH = es.length := by
        simp only [List.length_tail, List.length_append, List.length_singleton, List.length_nil, List.length_cons]
        omega
      have hidx2 : log.length + (e :: es).length - maxH = es.length + 1 := by
        simp only [List.length_cons]
        omega
      rw [h1, hidx1, hidx2, ← List.drop_one, List.drop_drop, Nat.add_comm]
    · have hpush : boundedPush maxH log e = log ++ [e] := by
        unfold boundedPush
        rw [if_neg hc]
      have hble : (log ++ [e]).length ≤ maxH := Nat.le_of_not_lt hc
      rw [hpush, ih _ hble, List.append_assoc, List.singleton_append]
      have h2 : (log ++ [e]).length + es.length - maxH =
          log.length + (e :: es).length - maxH := by
        simp only [List.length_append, List.length_singleton, List.length_cons, List.length_nil]
        omega
      rw [h2]

theorem foldl_boundedPush_nil {α : Type} (maxH : Nat) (es : List α) :
    es.foldl (boundedPush maxH) [] = es.drop (es.length - maxH) := by
  simpa using foldl_boundedPush_drop maxH es [] (by simp)

theorem mapGet_cons (p : String × String) (m : List (String × String)) (k : String) :
    mapGet (p :: m) k = if p.1 = k then some p.2 else mapGet m k := by
  by_cases h : p.1 = k <;> simp [mapGet, List.find?_cons, h]

theorem mapDelete_cons (p : String × String) (m : List (String × String)) (k : String) :
    mapDelete (p :: m) k = if p.1 = k then mapDelete m k else p :: mapDelete m k := by
  by_cases h : p.1 = k <;> simp [mapDelete, List.filter_cons, h]

theorem mapGet_mapDelete_self (m : List (String × String)) (k : String) :
    mapGet (mapDelete m k) k = none := by
  induction m with
  | nil => rfl
  | cons p m ih =>
    rw [mapDelete_cons]
    by_cases h : p.1 = k
    · simpa [h] using ih
    · simpa [mapGet_cons, h] using ih

theorem mapGet_mapDelete_ne (m : List (String × String)) (k k' : String)
    (h : k' ≠ k) : mapGet (mapDelete m k) k' = mapGet m k' := by
  induction m with
  | nil => rfl
  | cons p m ih =>
    rw [mapDelete_cons]
    by_cases hp : p.1 = k
    · have hp' : ¬ p.1 = k' := by rw [hp]; exact fun he => h he.symm
      rw [if_pos hp, mapGet_cons, if_neg hp', ih]
    · rw [if_neg hp, mapGet_cons, mapGet_cons, ih]

theorem mapDelete_of_mapGet_none (m : List (String × String)) (k : String)
    (h : mapGet m k = none) : mapDelete m k = m := by
  induction m with
  | nil => rfl
  | cons p m ih =>
    rw [mapGet_cons] at h
    by_cases hp : p.1 = k
    · rw [if_pos hp] at h
      exact absurd h (by simp)
    · rw [if_neg hp] at h
      rw [mapDelete_cons, if_neg hp, ih h]

/-! ### Claim theorems -/

/-- Claim C1: for every sequence of appends the History Log (as maintained by
the join, message and disconnect handlers through `boundedPush`) never exceeds
its capacity `N`, the surviving contents are exactly the last `N` appended
events (FIFO eviction of the oldest), and with capacity `N = 2` appending
`A`, `B`, `C` leaves the log equal to `[B, C]`. -/
theorem history_log_bounded_fifo (N : Nat) (es : List HistEvent) :
    (es.foldl (boundedPush N) []).length ≤ N ∧
    es.foldl (boundedPush N) [] = es.drop (es.length - N) ∧
    [mkMessageEvent "s1" "u" "A" "10:00", mkMessageEvent "s1" "u" "B" "10:00",
        mkMessageEvent "s1" "u" "C" "10:00"].foldl (boundedPush 2) [] =
      [mkMessageEvent "s1" "u" "B" "10:00", mkMessageEvent "s1" "u" "C" "10:00"] := by
  refine ⟨?_, foldl_boundedPush_nil N es, rfl⟩
  rw [foldl_boundedPush_nil N es]
  simp only [List.length_drop]
  omega

/-- A client state sitting at the login screen with a whitespace-only name. -/
def blankClientState : ClientState :=
  { userName := " ", messageInput := "", messages := [], users := [],
    isConnected := false, loginPhase := true, showConnectionModal := false,
    showInitialConnectPrompt := false }

/-- A server state with two named live connections and empty history. -/
def demoServerState : ServerState :=
  { users := [("s1", "alice"), ("s2", "bob")], messageHistory := [] }

/-- Claim C2 counterexample: the server-side `user_join` handler does not
reject a whitespace-only display name — it creates a registry entry, appends
a `Joined` event to the History Log and broadcasts it. -/
theorem user_join_blank_not_rejected :
    jsTrim " " = "" ∧
    (handleUserJoin initState "s1" " " "10:00").1.users = [("s1", " ")] ∧
    (handleUserJoin initState "s1" " " "10:00").1.messageHistory =
      [mkJoinEvent "s1" " " "10:00"] ∧
    (handleUserJoin initState "s1" " " "10:00").2 =
      [.userJoined (mkJoinEvent "s1" " " "10:00")] := by
  decide

/-- Claim C2 (amended): empty and whitespace-only display names are screened
out on the client, not by the coordinator — `joinChat` is a no-op when the
trimmed name is empty, so no announce is emitted for such a name; the
server-side handler itself performs no emptiness check and registers and
broadcasts whatever name it receives. -/
theorem blank_name_screened_by_client (s : ClientState) (st : ServerState)
    (sid n ts : String) :
    (jsTrim s.userName = "" → joinChat s = s) ∧
    (handleUserJoin st sid n ts).1.users = mapSet st.users sid n ∧
    (handleUserJoin st sid n ts).2.length = 1 := by
  refine ⟨fun h => ?_, ?_, ?_⟩
  · simp [joinChat, h]
  · simp only [handleUserJoin]
    by_cases hc : ((st.users.map fun p => p.2).contains n) = true
    · rw [if_pos hc]
    · rw [if_neg hc]
  · simp only [handleUserJoin]
    by_cases hc : ((st.users.map fun p => p.2).contains n) = true
    · rw [if_pos hc]
      rfl
    · rw [if_neg hc]
      rfl

/-- Witness for the amended Claim C2 at concrete inputs. -/
theorem blank_name_screened_by_client_witness :
    joinChat blankClientState = blankClientState ∧
    (handleUserJoin initState "s1" "alice" "10:00").1.users =
      mapSet initState.users "s1" "alice" ∧
    (handleUserJoin initState "s1" "alice" "10:00").2.length = 1 :=
  ⟨(blank_name_screened_by_client blankClientState initState "s1" "alice" "10:00").1
      (by decide),
   (blank_name_screened_by_client blankClientState initState "s1" "alice" "10:00").2.1,
   (blank_name_screened_by_client blankClientState initState "s1" "alice" "10:00").2.2⟩

/-- Claim C3: a `user_join` announce with a display name held by no live
registered connection registers the entry, appends exactly one `Joined` event
to the History Log, and broadcasts exactly that event and nothing else. -/
theorem user_join_fresh_name (st : ServerState) (sid n ts : String)
    (h : ((st.users.map fun p => p.2).contains n) = false) :
    handleUserJoin st sid n ts =
      ({ users := mapSet st.users sid n
         messageHistory := (boundedPush MAX_HISTORY st.messageHistory
           (mkJoinEvent sid n ts)) },
       [.userJoined (mkJoinEvent sid n ts)]) := by
  simp only [handleUserJoin]
  rw [if_neg (by rw [h]; exact Bool.false_ne_true)]

/-- Witness for Claim C3: first join of alice on an empty server. -/
theorem user_join_fresh_name_witness :
    handleUserJoin initState "s1" "alice" "10:00" =
      ({ users := mapSet initState.users "s1" "alice"
         messageHistory := (boundedPush MAX_HISTORY initState.messageHistory
           (mkJoinEvent "s1" "alice" "10:00")) },
       [.userJoined (mkJoinEvent "s1" "alice" "10:00")]) :=
  user_join_fresh_name initState "s1" "alice" "10:00" (by decide)

/-- Claim C4: a `user_join` announce with a display name some live
registered connection already holds registers the new entry, broadcasts a
`Reconnected` event carrying the connection id and name, and leaves the
History Log unchanged. -/
theorem user_join_existing_name (st : ServerState) (sid n ts : String)
    (h : ((st.users.map fun p => p.2).contains n) = true) :
    handleUserJoin st sid n ts =
      ({ st with users := mapSet st.users sid n }, [.userReconnected sid n]) ∧
    (handleUserJoin st sid n ts).1.messageHistory = st.messageHistory := by
  have h1 : handleUserJoin st sid n ts =
      ({ st with users := mapSet st.users sid n }, [.userReconnected sid n]) := by
    simp only [handleUserJoin]
    rw [if_pos h]
  exact ⟨h1, by rw [h1]⟩

/-- Witness for Claim C4: a second connection re-announcing alice. -/
theorem user_join_existing_name_witness :
    handleUserJoin demoServerState "s3" "alice" "10:05" =
      ({ demoServerState with users := mapSet demoServerState.users "s3" "alice" },
       [.userReconnected "s3" "alice"]) ∧
    (handleUserJoin demoServerState "s3" "alice" "10:05").1.messageHistory =
      demoServerState.messageHistory :=
  ⟨(user_join_existing_name demoServerState "s3" "alice" "10:05" (by decide)).1,
   (user_join_existing_name demoServerState "s3" "alice" "10:05" (by decide)).2⟩

/-- Claim C5: a disconnect of a connection with a registered (non-empty)
display name removes exactly its registry entry (the disconnected key is gone,
every other key is untouched) and appends and broadcasts exactly one `Left`
event; a disconnect of a never-named connection changes nothing and emits
nothing. -/
theorem disconnect_named_and_unnamed (st : ServerState) (sid ts : String) :
    (∀ n, mapGet st.users sid = some n → n ≠ "" →
      handleDisconnect st sid ts =
        ({ users := mapDelete st.users sid
           messageHistory := (boundedPush MAX_HISTORY st.messageHistory
             (mkLeftEvent sid n ts (mapDelete st.users sid).length)) },
         [.userLeft (mkLeftEvent sid n ts (mapDelete st.users sid).length)]) ∧
      mapGet (mapDelete st.users sid) sid = none ∧
      (∀ k, k ≠ sid → mapGet (mapDelete st.users sid) k = mapGet st.users k)) ∧
    (mapGet st.users sid = none →
      handleDisconnect st sid ts = (st, [])) := by
  constructor
  · intro n hn hne
    refine ⟨?_, mapGet_mapDelete_self _ _, fun k hk => mapGet_mapDelete_ne _ _ _ hk⟩
    simp [handleDisconnect, hn, hne]
  · intro hn
    have hd : mapDelete st.users sid = st.users := mapDelete_of_mapGet_none _ _ hn
    simp [handleDisconnect, hn, hd]

/-- Witness for Claim C5: alice disconnects (bob's entry survives), and a
never-named connection disconnects without any effect. -/
theorem disconnect_named_and_unnamed_witness :
    handleDisconnect demoServerState "s1" "10:01" =
      ({ users := mapDelete demoServerState.users "s1"
         messageHistory := (boundedPush MAX_HISTORY demoServerState.messageHistory
           (mkLeftEvent "s1" "alice" "10:01"
             (mapDelete demoServerState.users "s1").length)) },
       [.userLeft (mkLeftEvent "s1" "alice" "10:01"
           (mapDelete demoServerState.users "s1").length)]) ∧
    mapGet (mapDelete demoServerState.users "s1") "s2" =
      mapGet demoServerState.users "s2" ∧
    handleDisconnect initState "s9" "10:01" = (initState, []) :=
  ⟨((disconnect_named_and_unnamed demoServerState "s1" "10:01").1 "alice"
      (by decide) (by decide)).1,
   ((disconnect_named_and_unnamed demoServerState "s1" "10:01").1 "alice"
      (by decide) (by decide)).2.2 "s2" (by decide),
   (disconnect_named_and_unnamed initState "s9" "10:01").2 (by decide)⟩

/-- Claim C6: a chat message from a connection absent from the registry is
silently dropped (state and broadcasts untouched); a message from a registered
(non-empty-named) connection appends and broadcasts exactly one `Message`
event carrying the resolved display name. -/
theorem send_message_dropped_or_routed (st : ServerState) (sid body ts : String) :
    (mapGet st.users sid = none →
      handleSendMessage st sid body ts = (st, [])) ∧
    (∀ n, mapGet st.users sid = some n → n ≠ "" →
      handleSendMessage st sid body ts =
        ({ st with messageHistory := (boundedPush MAX_HISTORY st.messageHistory
            (mkMessageEvent sid n body ts)) },
         [.receiveMessage (mkMessageEvent sid n body ts)])) := by
  constructor
  · intro h
    simp [handleSendMessage, h]
  · intro n hn hne
    simp [handleSendMessage, hn, hne]

/-- Witness for Claim C6: an unknown sender is dropped, alice's message is
routed. -/
theorem send_message_dropped_or_routed_witness :
    handleSendMessage initState "s9" "hello" "10:00" = (initState, []) ∧
    handleSendMessage demoServerState "s1" "hello" "10:00" =
      ({ demoServerState with messageHistory := (boundedPush MAX_HISTORY
          demoServerState.messageHistory
          (mkMessageEvent "s1" "alice" "hello" "10:00")) },
       [.receiveMessage (mkMessageEvent "s1" "alice" "hello" "10:00")]) :=
  ⟨(send_message_dropped_or_routed initState "s9" "hello" "10:00").1 (by decide),
   (send_message_dropped_or_routed demoServerState "s1" "hello" "10:00").2 "alice"
     (by decide) (by decide)⟩

theorem hasSub_append_right (l₀ l pat : List Char) (h : hasSub l pat = true) :
    hasSub (l₀ ++ l) pat = true := by
  induction l₀ with
  | nil => simpa using h
  | cons c cs ih =>
    simp only [List.cons_append, hasSub, List.append_eq]
    rw [ih]
    simp

theorem strIncludes_append_right (a b pat : String)
    (h : strIncludes b pat = true) : strIncludes (a ++ b) pat = true := by
  simp only [strIncludes, String.toList] at h ⊢
  rw [String.data_append]
  exact hasSub_append_right _ _ _ h

theorem append_ne_empty_right (a b : String) (hb : b.data ≠ []) : a ++ b ≠ "" := by
  intro h
  have h2 := congrArg String.data h
  rw [String.data_append] at h2
  exact hb (List.append_eq_nil.mp h2).2

/-- Claim C7 counterexample: a genuine `Message` event — produced by
`send_message` for the registered user alice — whose body mentions the word
`joined` is classified by the client as a system entry, not a chat bubble,
and it mutates the online set, contradicting tagged-variant classification. -/
theorem message_event_misclassified :
    (handleSendMessage { users := [("s1", "alice")], messageHistory := [] }
        "s1" "i have joined the queue" "10:00").1.messageHistory =
      [mkMessageEvent "s1" "alice" "i have joined the queue" "10:00"] ∧
    classifyMsg "bob" (mkMessageEvent "s1" "alice" "i have joined the queue" "10:00") =
      .system "i have joined the queue" "10:00" ∧
    replayOnline [mkMessageEvent "s1" "alice" "i have joined the queue" "10:00"] =
      [("alice", "s1")] := by
  decide

/-- Claim C7 (amended): the Client Presence Reconstructor classifies by
substring matching on the message text, not by tagged variants: an event with
a non-empty message containing `joined` records `(displayName → userId)` in
the online map and becomes a system entry; otherwise one with a non-empty
message containing `left` removes the name and becomes a system entry; every
other event — in particular any `Message` whose body avoids both substrings —
becomes a chat bubble tagged `isOwn` exactly when its `userName` equals the
local name, with no effect on the online map.  Genuine `Joined` events always
fall in the first class, and genuine `Left` events fall in the second
whenever their text does not also contain `joined`. -/
theorem reconstructor_classifies_by_text (localName sid n ts : String) (r : Nat)
    (uj : List (String × String)) (msg : HistEvent) :
    (msg.message ≠ "" → strIncludes msg.message "joined" = true →
      replayStep uj msg = mapSet uj msg.userName msg.userId ∧
      classifyMsg localName msg = .system msg.message msg.timestamp) ∧
    (msg.message ≠ "" → strIncludes msg.message "joined" = false →
        strIncludes msg.message "left" = true →
      replayStep uj msg = mapDelete uj msg.userName ∧
      classifyMsg localName msg = .system msg.message msg.timestamp) ∧
    (strIncludes msg.message "joined" = false →
        strIncludes msg.message "left" = false →
      replayStep uj msg = uj ∧
      classifyMsg localName msg =
        .message msg.userId msg.userName msg.message msg.timestamp
          (msg.userName = localName)) ∧
    (replayStep uj (mkJoinEvent sid n ts) = mapSet uj n sid ∧
     classifyMsg localName (mkJoinEvent sid n ts) =
       .system (n ++ " joined the chat") ts) ∧
    (strIncludes (mkLeftEvent sid n ts r).message "joined" = false →
      replayStep uj (mkLeftEvent sid n ts r) = mapDelete uj n ∧
      classifyMsg localName (mkLeftEvent sid n ts r) =
        .system (n ++ " left the chat") ts) := by
  have hjoin : strIncludes (n ++ " joined the chat") "joined" = true :=
    strIncludes_append_right n " joined the chat" "joined" (by decide)
  have hleft : strIncludes (n ++ " left the chat") "left" = true :=
    strIncludes_append_right n " left the chat" "left" (by decide)
  have hne1 : n ++ " joined the chat" ≠ "" :=
    append_ne_empty_right n " joined the chat" (by decide)
  have hne2 : n ++ " left the chat" ≠ "" :=
    append_ne_empty_right n " left the chat" (by decide)
  refine ⟨fun h1 h2 => ?_, fun h1 h2 h3 => ?_, fun h2 h3 => ?_, ?_, fun h2 => ?_⟩
  · constructor
    · unfold replayStep
      rw [if_pos ⟨h1, h2⟩]
    · unfold classifyMsg
      rw [if_pos ⟨h1, Or.inl h2⟩]
  · constructor
    · unfold replayStep
      rw [if_neg (fun hcon => Bool.false_ne_true (h2 ▸ hcon.2)), if_pos ⟨h1, h3⟩]
    · unfold classifyMsg
      rw [if_pos ⟨h1, Or.inr h3⟩]
  · constructor
    · unfold replayStep
      rw [if_neg (fun hcon => Bool.false_ne_true (h2 ▸ hcon.2)),
        if_neg (fun hcon => Bool.false_ne_true (h3 ▸ hcon.2))]
    · unfold classifyMsg
      rw [if_neg (fun hcon =>
        hcon.2.elim (fun hj => Bool.false_ne_true (h2 ▸ hj))
          (fun hl => Bool.false_ne_true (h3 ▸ hl)))]
  · constructor
    · show replayStep uj
        { userId := sid, userName := n, message := n ++ " joined the chat",
          timestamp := ts, totalUsers := none } = mapSet uj n sid
      unfold replayStep
      rw [if_pos ⟨hne1, hjoin⟩]
    · show classifyMsg localName
        { userId := sid, userName := n, message := n ++ " joined the chat",
          timestamp := ts, totalUsers := none } = .system (n ++ " joined the chat") ts
      unfold classifyMsg
      rw [if_pos ⟨hne1, Or.inl hjoin⟩]
  · constructor
    · show replayStep uj
        { userId := sid, userName := n, message := n ++ " left the chat",
          timestamp := ts, totalUsers := some r } = mapDelete uj n
      unfold replayStep
      rw [if_neg (fun hcon => Bool.false_ne_true (h2 ▸ hcon.2)), if_pos ⟨hne2, hleft⟩]
    · show classifyMsg localName
        { userId := sid, userName := n, message := n ++ " left the chat",
          timestamp := ts, totalUsers := some r } = .system (n ++ " left the chat") ts
      unfold classifyMsg
      rw [if_pos ⟨hne2, Or.inr hleft⟩]

/-- Witness for the amended Claim C7: a join text, a leave text, and a plain
chat body each land in their class at concrete inputs. -/
theorem reconstructor_classifies_by_text_witness :
    (replayStep [] (mkJoinEvent "s1" "alice" "10:00") = mapSet [] "alice" "s1" ∧
     classifyMsg "bob" (mkJoinEvent "s1" "alice" "10:00") =
       .system ("alice" ++ " joined the chat") "10:00") ∧
    (replayStep [("alice", "s1")] (mkLeftEvent "s1" "alice" "10:01" 0) =
       mapDelete [("alice", "s1")] "alice" ∧
     classifyMsg "bob" (mkLeftEvent "s1" "alice" "10:01" 0) =
       .system ("alice" ++ " left the chat") "10:01") ∧
    (replayStep [("alice", "s1")] (mkMessageEvent "s1" "alice" "hi" "10:00") =
       [("alice", "s1")] ∧
     classifyMsg "alice" (mkMessageEvent "s1" "alice" "hi" "10:00") =
       .message "s1" "alice" "hi" "10:00" (("alice" : String) = "alice")) :=
  ⟨(reconstructor_classifies_by_text "bob" "s1" "alice" "10:00" 0 []
      (mkJoinEvent "s1" "alice" "10:00")).2.2.2.1,
   (reconstructor_classifies_by_text "bob" "s1" "alice" "10:01" 0 [("alice", "s1")]
      (mkLeftEvent "s1" "alice" "10:01" 0)).2.2.2.2 (by decide),
   (reconstructor_classifies_by_text "alice" "s1" "alice" "10:00" 0 [("alice", "s1")]
      (mkMessageEvent "s1" "alice" "hi" "10:00")).2.2.1 (by decide) (by decide)⟩

/-- The server run behind Claim C8: alice joins, says hi, disconnects, then
bob joins; its history is the snapshot of the claim. -/
def c8Run : ServerState :=
  (handleUserJoin
    ((handleDisconnect
      ((handleSendMessage
        ((handleUserJoin initState "s1" "alice" "10:00").1)
        "s1" "hi" "10:00").1)
      "s1" "10:01").1)
    "s2" "bob" "10:01").1

/-- The snapshot `[Joined(alice), Message(alice, hi), Left(alice), Joined(bob)]`
with the event shapes the server actually produces. -/
def c8Snapshot : List HistEvent :=
  [mkJoinEvent "s1" "alice" "10:00",
   mkMessageEvent "s1" "alice" "hi" "10:00",
   mkLeftEvent "s1" "alice" "10:01" 0,
   mkJoinEvent "s2" "bob" "10:01"]

/-- Claim C8 counterexample: replaying the snapshot leaves exactly bob online,
but the timeline has 4 entries, not 3 — the `Left` event is mapped to a
system entry of its own. -/
theorem c8_timeline_not_three :
    c8Run.messageHistory = c8Snapshot ∧
    (loadHistoryClient "alice" c8Snapshot).users.map (fun p => p.2) = ["bob"] ∧
    (loadHistoryClient "alice" c8Snapshot).messages.length = 4 ∧
    (loadHistoryClient "alice" c8Snapshot).messages.length ≠ 3 := by
  decide

/-- Claim C8 (amended): replaying the snapshot yields Online Users View
`{bob}` and a 4-entry timeline (system join, chat message, system leave,
system join); the `Left` event removes alice from the online set yet stays
visible in the timeline. -/
theorem c8_replay_result :
    loadHistoryClient "alice" c8Snapshot =
      { users := [("s2", "bob")]
        messages := [.system "alice joined the chat" "10:00",
                     .message "s1" "alice" "hi" "10:00" true,
                     .system "alice left the chat" "10:01",
                     .system "bob joined the chat" "10:01"] } := by
  decide

/-- Claim C9: a time separator is shown before entry `i` exactly when `i > 0`
and entry `i`'s minute-granularity timestamp label differs from entry
`i - 1`'s; never before the first entry. -/
theorem time_separator_rule (msgs : List TimelineEntry) (i : Nat) :
    shouldShowTimeSeparator msgs 0 = false ∧
    (∀ h : i < msgs.length,
      (shouldShowTimeSeparator msgs i = true ↔
        0 < i ∧ msgs[i].timestamp ≠ msgs[i - 1].timestamp)) := by
  constructor
  · simp [shouldShowTimeSeparator]
  · intro h
    unfold shouldShowTimeSeparator
    by_cases hi : i = 0
    · subst hi
      simp
    · rw [if_neg hi]
      have h1 : i - 1 < msgs.length := Nat.lt_of_le_of_lt (Nat.sub_le i 1) h
      rw [List.getElem?_eq_getElem h, List.getElem?_eq_getElem h1]
      constructor
      · intro ht
        exact ⟨Nat.pos_of_ne_zero hi, by simpa using ht⟩
      · intro hc
        simpa using hc.2

/-- A concrete 3-entry timeline used as the Claim C9 witness. -/
def demoTimeline : List TimelineEntry :=
  [.system "alice joined the chat" "10:00",
   .message "s1" "alice" "hi" "10:00" false,
   .message "s1" "alice" "later" "10:05" false]

/-- Witness for Claim C9 at the concrete timeline: no separator before the
first entry; a separator before entry 2, whose label differs from entry 1. -/
theorem time_separator_rule_witness :
    shouldShowTimeSeparator demoTimeline 0 = false ∧
    (shouldShowTimeSeparator demoTimeline 2 = true ↔
      0 < 2 ∧
        (demoTimeline.get ⟨2, by decide⟩).timestamp ≠
          (demoTimeline.get ⟨1, by decide⟩).timestamp) :=
  ⟨(time_separator_rule demoTimeline 2).1,
   (time_separator_rule demoTimeline 2).2 (by decide)⟩

/-- Claim C10: the client-side transport-disconnect handler only lowers the
connected flag — users, messages, the chosen name, and every other field are
untouched; the clearing of messages, users and name happens exactly in the
explicit `leaveChat` operation. -/
theorem client_disconnect_keeps_state (s : ClientState) :
    (clientOnDisconnect s).users = s.users ∧
    (clientOnDisconnect s).messages = s.messages ∧
    (clientOnDisconnect s).userName = s.userName ∧
    (clientOnDisconnect s).messageInput = s.messageInput ∧
    (clientOnDisconnect s).loginPhase = s.loginPhase ∧
    (clientOnDisconnect s).showConnectionModal = s.showConnectionModal ∧
    (clientOnDisconnect s).showInitialConnectPrompt = s.showInitialConnectPrompt ∧
    (clientOnDisconnect s).isConnected = false ∧
    leaveChat s = { s with loginPhase := true, messages := [], users := [],
                           userName := "", isConnected := false } :=
  ⟨rfl, rfl, rfl, rfl, rfl, rfl, rfl, rfl, rfl⟩

end ChatApp
